import Mathlib

/-!
Verification of the Alipay payment acquirer module (`src/models/payment.py`).

The module is embedded shallowly:

* Python/Odoo `float` amounts are modelled as exact rationals (`ℚ`); the
  spec describes them as decimals and no claim depends on binary-float
  rounding of the arithmetic itself.
* A notification payload is an untrusted string-keyed dict.  The code reads
  a fixed set of keys via `data.get(...)`; we model the payload as a record
  of `Option String` fields, `none` meaning the key is absent.
* Odoo `Char` fields that may be unset (`acquirer_reference`,
  `alipay_seller_account`) are `Option String`; `alipay_email_account` is
  declared `required_if_provider='alipay'` in the source, so it is a plain
  `String`.
* Python truthiness of an optional string (`None` and `''` are falsy) is
  the `truthy` function below.
* `float(s)` can raise `ValueError`; it is modelled as the partial parser
  `pyFloat?`, and the one function that calls it unguarded
  (`_alipay_form_get_invalid_parameters`) therefore returns an `Option`,
  `none` standing for an escaped exception.
* `raise ValidationError(msg)` is modelled with `Except String`.
* Record mutation (`self.write(res)`) is modelled by returning the updated
  transaction record; the current time (`fields.datetime.now()`) is an
  explicit `now` argument.
-/

/-- A Python value as it can appear inside an `invalid_parameters` tuple in
the source: `None`, a string, or a number.  (The source appends tuples
mixing `data.get(...)` results, strings and the float `self.fees`.) -/
inductive PyVal where
  | none : PyVal
  | str : String → PyVal
  | num : ℚ → PyVal
deriving DecidableEq, Repr

/-- `data.get(key)` / an optional Odoo Char field, as a `PyVal`. -/
def pyVal : Option String → PyVal
  | Option.none => PyVal.none
  | Option.some s => PyVal.str s

/-- Python truthiness of an optional string: `None` and `''` are falsy. -/
def truthy : Option String → Bool
  | Option.none => false
  | Option.some s => !s.isEmpty

/-- Rendering of an optional string by Python `'%s' %`: `None` prints as
the string `None`. -/
def pyStr : Option String → String
  | Option.none => "None"
  | Option.some s => s

/-- Numeric value of a list of decimal digit characters (most significant
first), as used by `pyParse?`. -/
def digitsVal (cs : List Char) : ℕ :=
  cs.foldl (fun a c => 10 * a + (c.toNat - 48)) 0

/-- Syntactic phase of Python `float(s)`: recognises an optional sign,
integer digits, an optional fractional part and an optional exponent, with
at least one mantissa digit, and returns
(signed mantissa read as an integer, number of fractional digits, exponent).
`none` models the `ValueError` Python raises when the string does not parse
as a number.  (Python's `float` also accepts surrounding whitespace, `inf`
and `nan`; those are outside the fragment any claim exercises and
`inf`/`nan` have no rational value.) -/
def pyParse? (s : String) : Option (ℤ × ℕ × ℤ) :=
  let cs := s.toList
  let signAndRest : ℤ × List Char :=
    match cs with
    | '-' :: rest => (-1, rest)
    | '+' :: rest => (1, rest)
    | _ => (1, cs)
  let sign := signAndRest.1
  let afterSign := signAndRest.2
  let intPart := afterSign.takeWhile (·.isDigit)
  let rest1 := afterSign.dropWhile (·.isDigit)
  let fracAndRest : List Char × List Char :=
    match rest1 with
    | '.' :: rest => (rest.takeWhile (·.isDigit), rest.dropWhile (·.isDigit))
    | _ => ([], rest1)
  let fracPart := fracAndRest.1
  let rest2 := fracAndRest.2
  if intPart.isEmpty && fracPart.isEmpty then
    Option.none
  else
    let mantissa : ℤ := sign * (digitsVal (intPart ++ fracPart) : ℤ)
    match rest2 with
    | [] => Option.some (mantissa, fracPart.length, 0)
    | 'e' :: erest => pyParseExp mantissa fracPart.length erest
    | 'E' :: erest => pyParseExp mantissa fracPart.length erest
    | _ => Option.none
where
  /-- Exponent part of a Python float literal: optional sign then digits. -/
  pyParseExp (mantissa : ℤ) (fracLen : ℕ) (cs : List Char) :
      Option (ℤ × ℕ × ℤ) :=
    let signAndDigits : ℤ × List Char :=
      match cs with
      | '-' :: rest => (-1, rest)
      | '+' :: rest => (1, rest)
      | _ => (1, cs)
    if signAndDigits.2.isEmpty || !signAndDigits.2.all (·.isDigit) then
      Option.none
    else
      Option.some (mantissa, fracLen, signAndDigits.1 * (digitsVal signAndDigits.2 : ℤ))

/-- Models Python `float(s)` on the decimal-literal fragment the module
receives (see `pyParse?`), as an exact rational. -/
def pyFloat? (s : String) : Option ℚ :=
  match pyParse? s with
  | Option.none => Option.none
  | Option.some (m, f, e) => Option.some ((m : ℚ) / (10 : ℚ) ^ f * (10 : ℚ) ^ e)

/-- Rounds `q` to `d` decimal places, models `odoo.tools.float_utils.float_round`
at `precision_digits=d` (the half-integer tie direction differs for negative
ties, which no claim exercises). -/
def roundTo (d : ℕ) (q : ℚ) : ℚ :=
  ((round (q * (10 : ℚ) ^ d) : ℤ) : ℚ) / (10 : ℚ) ^ d

/-- Models `odoo.tools.float_utils.float_compare(v1, v2, precision_digits)`:
both values are rounded at the given precision and compared; result `0`
means equal at that precision. -/
def float_compare (v1 v2 : ℚ) (precision_digits : ℕ) : ℤ :=
  if roundTo precision_digits v1 = roundTo precision_digits v2 then 0
  else if roundTo precision_digits v1 < roundTo precision_digits v2 then -1
  else 1

/-- Models `'%.2f' % q` (used for the expected value in the `mc_gross`
discrepancy tuple). -/
def fmt2 (q : ℚ) : String :=
  let n : ℤ := round (q * 100)
  let a := n.natAbs
  (if n < 0 then "-" else "") ++ toString (a / 100) ++ "." ++
    (if a % 100 < 10 then "0" else "") ++ toString (a % 100)

/-- The acquirer configuration fields that `alipay_compute_fees` reads
(`payment.acquirer` record restricted to this provider's fields), plus the
merchant company's country (`self.company_id.country_id`), `none` when
unset. -/
structure AcquirerAlipay where
  fees_active : Bool
  fees_dom_fixed : ℚ
  fees_dom_var : ℚ
  fees_int_fixed : ℚ
  fees_int_var : ℚ
  company_country_id : Option ℕ
deriving DecidableEq, Repr

/-- Embeds `AcquirerAlipay.alipay_compute_fees(self, amount, currency_id, country_id)`
(src/models/payment.py lines 66-86).  `country_id` is the customer country
id or `None`; `self.env['res.country'].browse(None)` is an empty, falsy
recordset, and `self.company_id.country_id.id` compares unequal to every
id when the company country is unset.  The `currency_id` argument is
unused by the source body and omitted. -/
def alipay_compute_fees (self : AcquirerAlipay) (amount : ℚ)
    (country_id : Option ℕ) : ℚ :=
  if !self.fees_active then 0
  else
    let pair : ℚ × ℚ :=
      match country_id with
      | Option.none => (self.fees_int_var, self.fees_int_fixed)
      | Option.some c =>
          if self.company_country_id = Option.some c then
            (self.fees_dom_var, self.fees_dom_fixed)
          else (self.fees_int_var, self.fees_int_fixed)
    let percentage := pair.1
    let fixed := pair.2
    (percentage / 100 * amount + fixed) / (1 - percentage / 100)

/-- The fields of a `payment.transaction` record (and of its related
`payment.acquirer` / `payment.token` records) that the Alipay methods read
or write.  `payment_token_acquirer_ref` is `self.payment_token_id.acquirer_ref`
when a token record is linked, `none` when `self.payment_token_id` is unset.
`alipay_email_account` is a plain `String` because the field is declared
`required_if_provider='alipay'`. -/
structure Transaction where
  reference : String
  amount : ℚ
  fees : ℚ
  currency_name : String
  acquirer_reference : Option String := Option.none
  payment_token_acquirer_ref : Option String := Option.none
  alipay_seller_account : Option String := Option.none
  alipay_email_account : String
  state : String := "draft"
  state_message : String := ""
  alipay_txn_type : Option String := Option.none
  date_validate : Option String := Option.none
deriving DecidableEq, Repr

/-- The keys of the untrusted notification dict that the transaction
methods read via `data.get(...)` / `data[...]`; `none` means the key is
absent from the dict.  (`notify_version` and `test_ipn` are also read but
only logged, so they are omitted.) -/
structure Payload where
  item_number : Option String := Option.none
  txn_id : Option String := Option.none
  payment_status : Option String := Option.none
  payment_type : Option String := Option.none
  payment_date : Option String := Option.none
  pending_reason : Option String := Option.none
  mc_gross : Option String := Option.none
  mc_currency : Option String := Option.none
  handling_amount : Option String := Option.none
  payer_id : Option String := Option.none
  receiver_id : Option String := Option.none
  receiver_email : Option String := Option.none
deriving DecidableEq, Repr

/-- An `invalid_parameters` entry: (field name, received value, expected
value). -/
abbrev Discrepancy : Type := String × PyVal × PyVal

/-- Embeds `TxAlipay._alipay_form_get_tx_from_data(self, data)`
(src/models/payment.py lines 130-148).  The `payment.transaction` store
searched by `self.env['payment.transaction'].search([('reference', '=', reference)])`
is the explicit `store` list; `raise ValidationError(msg)` is `Except.error msg`. -/
def _alipay_form_get_tx_from_data (store : List Transaction) (data : Payload) :
    Except String Transaction :=
  let reference := data.item_number
  let txn_id := data.txn_id
  if truthy reference = false ∨ truthy txn_id = false then
    Except.error ("Alipay: received data with missing reference (" ++ pyStr reference ++
      ") or txn_id (" ++ pyStr txn_id ++ ")")
  else
    match store.filter (fun t => t.reference = reference.getD "") with
    | [t] => Except.ok t
    | [] => Except.error ("Alipay: received data for reference " ++ pyStr reference ++
        "; no order found")
    | _ => Except.error ("Alipay: received data for reference " ++ pyStr reference ++
        "; multiple order found")

/-- The pure part of `TxAlipay._alipay_form_get_invalid_parameters`
(src/models/payment.py lines 150-185), given the already-parsed numeric
value `g` of `data.get('mc_gross', '0.0')` and, when the `handling_amount`
key is present, the parsed value `h?` of it.  Checks appear in source
order; each appends at most one tuple. -/
def invalid_parameters_checks (tx : Transaction) (data : Payload) (g : ℚ)
    (h? : Option ℚ) : List Discrepancy :=
  (if truthy tx.acquirer_reference = true ∧ data.txn_id ≠ tx.acquirer_reference then
    [("txn_id", pyVal data.txn_id, pyVal tx.acquirer_reference)] else []) ++
  (if float_compare g (tx.amount + tx.fees) 2 ≠ 0 then
    [("mc_gross", pyVal data.mc_gross, PyVal.str (fmt2 tx.amount))] else []) ++
  (if data.mc_currency ≠ Option.some tx.currency_name then
    [("mc_currency", pyVal data.mc_currency, PyVal.str tx.currency_name)] else []) ++
  (match h? with
   | Option.none => []
   | Option.some q =>
      if float_compare q tx.fees 2 ≠ 0 then
        [("handling_amount", pyVal data.handling_amount, PyVal.num tx.fees)] else []) ++
  (match tx.payment_token_acquirer_ref with
   | Option.none => []
   | Option.some r =>
      if data.payer_id ≠ Option.some r then
        [("payer_id", pyVal data.payer_id, PyVal.str r)] else []) ++
  (if truthy data.receiver_id = true ∧ truthy tx.alipay_seller_account = true ∧
      data.receiver_id ≠ tx.alipay_seller_account then
    [("receiver_id", pyVal data.receiver_id, pyVal tx.alipay_seller_account)] else []) ++
  (if truthy data.receiver_id = false ∨ truthy tx.alipay_seller_account = false then
    (if data.receiver_email ≠ Option.some tx.alipay_email_account then
      [("receiver_email", pyVal data.receiver_email, PyVal.str tx.alipay_email_account)]
     else [])
   else [])

/-- Embeds `TxAlipay._alipay_form_get_invalid_parameters(self, data)`
(src/models/payment.py lines 150-185).  The source calls
`float(data.get('mc_gross', '0.0'))` and, when the key is present,
`float(data.get('handling_amount'))` without guarding the conversion;
`Option.none` models the `ValueError` escaping the method.  When no
conversion raises, the returned list is `invalid_parameters_checks`. -/
def _alipay_form_get_invalid_parameters (tx : Transaction) (data : Payload) :
    Option (List Discrepancy) :=
  match pyFloat? (data.mc_gross.getD "0.0") with
  | Option.none => Option.none
  | Option.some g =>
    match data.handling_amount with
    | Option.none => Option.some (invalid_parameters_checks tx data g Option.none)
    | Option.some h =>
      match pyFloat? h with
      | Option.none => Option.none
      | Option.some q => Option.some (invalid_parameters_checks tx data g (Option.some q))

/-- Embeds `TxAlipay._alipay_form_validate(self, data)`
(src/models/payment.py lines 187-206).  `self.write(res)` is modelled by
returning the record with the written fields updated; the current time
taken by `fields.datetime.now()` in the absent-`payment_date` default is
the explicit `now` argument. -/
def _alipay_form_validate (tx : Transaction) (data : Payload) (now : String) :
    Transaction :=
  let status := data.payment_status
  let tx' := { tx with
    acquirer_reference := data.txn_id,
    alipay_txn_type := data.payment_type }
  if status = Option.some "Completed" ∨ status = Option.some "Processed" then
    { tx' with state := "done",
               date_validate := Option.some (data.payment_date.getD now) }
  else if status = Option.some "Pending" ∨ status = Option.some "Expired" then
    { tx' with state := "pending",
               state_message := data.pending_reason.getD "" }
  else
    { tx' with state := "error",
               state_message := "Received unrecognized status for Alipay payment " ++
                 tx.reference ++ ": " ++ pyStr status ++ ", set as error" }

/-- `true` when the discrepancy list contains an entry for the given field
name. -/
def hasDiscrepancy (l : List Discrepancy) (name : String) : Bool :=
  l.any (fun d => d.1 = name)

/-- Fixture for the fee claims: the source's default rates
(`fees_dom_fixed=0.35`, `fees_dom_var=3.4`, `fees_int_fixed=0.35`,
`fees_int_var=3.9`), fees enabled, merchant company in country 1. -/
def acqDefault : AcquirerAlipay :=
  { fees_active := true, fees_dom_fixed := 35/100, fees_dom_var := 34/10,
    fees_int_fixed := 35/100, fees_int_var := 39/10,
    company_country_id := Option.some 1 }

/-- Fixture for the C7 counterexample: fees enabled, a positive
international percentage rate of 200 and a positive fixed rate of 1
(the payer country is null, so the international pair is selected). -/
def acq200 : AcquirerAlipay :=
  { fees_active := true, fees_dom_fixed := 1, fees_dom_var := 50,
    fees_int_fixed := 1, fees_int_var := 200,
    company_country_id := Option.none }

/-- Fixture transaction for the C1 witness. -/
def txC1 : Transaction :=
  { reference := "SO100", amount := 1, fees := 0, currency_name := "USD",
    alipay_email_account := "shop@x.com" }

/-- Fixture payload for the C1 witness: a Completed notification without a
`payment_date`. -/
def pC1 : Payload :=
  { txn_id := Option.some "T1", payment_type := Option.some "instant_transfer",
    payment_status := Option.some "Completed" }

/-- Fixture transactions for the C3 witness: two records, a unique
reference `SO1` and a duplicated reference `SO2`. -/
def txStoreA : Transaction :=
  { reference := "SO1", amount := 10, fees := 0, currency_name := "USD",
    alipay_email_account := "shop@x.com" }

/-- Second fixture transaction for the C3 witness. -/
def txStoreB : Transaction :=
  { reference := "SO2", amount := 20, fees := 0, currency_name := "USD",
    alipay_email_account := "shop@x.com" }

/-- Fixture transaction for the C2 witness: a configured seller account and
seller email. -/
def txC2 : Transaction :=
  { reference := "SO200", amount := 0, fees := 0, currency_name := "USD",
    alipay_seller_account := Option.some "2088111",
    alipay_email_account := "shop@x.com" }

/-- Fixture payload for the C2 witness: `receiver_id` mismatches the seller
account while `receiver_email` matches the seller email. -/
def pC2 : Payload :=
  { mc_currency := Option.some "USD", receiver_id := Option.some "2088999",
    receiver_email := Option.some "shop@x.com" }

/-- Fixture transaction for C4: amount 100, fees 3.86, currency USD, no
acquirer reference, no payer token, no seller account, seller email
`shop@x.com`. -/
def tx4 : Transaction :=
  { reference := "SO400", amount := 100, fees := 386/100, currency_name := "USD",
    alipay_email_account := "shop@x.com" }

/-- Fixture payload for C4 with matching gross, currency and email. -/
def p4 : Payload :=
  { mc_gross := Option.some "103.86", mc_currency := Option.some "USD",
    receiver_email := Option.some "shop@x.com" }

/-- The C4 payload with the currency changed to EUR. -/
def p4eur : Payload :=
  { p4 with mc_currency := Option.some "EUR" }

/-- Fixture transaction for the C9 witness: `amount + fees = 50`. -/
def txC9 : Transaction :=
  { reference := "SO900", amount := 50, fees := 0, currency_name := "USD",
    alipay_email_account := "shop@x.com" }

/-- Fixture payload for the C9 witness: no `mc_gross` key; currency and
email match so the only failing check is the gross one. -/
def pC9 : Payload :=
  { mc_currency := Option.some "USD", receiver_email := Option.some "shop@x.com" }

/-- The discrepancy list produced for the C9 witness. -/
def lC9 : List Discrepancy := [("mc_gross", PyVal.none, PyVal.str (fmt2 50))]

/-- Fixture transaction for the C10 witness. -/
def txC10 : Transaction :=
  { reference := "SO000", amount := 0, fees := 0, currency_name := "USD",
    alipay_email_account := "shop@x.com" }

/-- Fixture payload for the C10 witness: an `mc_gross` value that does not
parse as a number. -/
def pC10 : Payload :=
  { mc_gross := Option.some "not-a-number" }

/-- `List.any` over an optional singleton produced by a check. -/
theorem any_ite_singleton {α : Type} (p : α → Bool) (c : Prop) [Decidable c] (x : α) :
    (if c then [x] else []).any p = (decide c && p x) := by
  split <;> simp_all

/-- Inversion for `_alipay_form_get_invalid_parameters`: a returned list is
`invalid_parameters_checks` at the parsed gross amount and optional parsed
handling amount. -/
theorem invalid_parameters_shape (tx : Transaction) (data : Payload)
    (l : List Discrepancy)
    (h : _alipay_form_get_invalid_parameters tx data = Option.some l) :
    ∃ g h?, pyFloat? (data.mc_gross.getD "0.0") = Option.some g ∧
      l = invalid_parameters_checks tx data g h? := by
  unfold _alipay_form_get_invalid_parameters at h
  cases hp : pyFloat? (data.mc_gross.getD "0.0") with
  | none => rw [hp] at h; simp at h
  | some g =>
    rw [hp] at h
    cases hh : data.handling_amount with
    | none =>
      rw [hh] at h; simp at h; exact ⟨g, Option.none, rfl, h.symm⟩
    | some s =>
      rw [hh] at h
      dsimp only at h
      cases hq : pyFloat? s with
      | none => rw [hq] at h; simp at h
      | some q => rw [hq] at h; simp at h; exact ⟨g, Option.some q, rfl, h.symm⟩

/-- The checklist records a `receiver_id` discrepancy exactly when the
payload carries a truthy `receiver_id`, the acquirer has a truthy seller
account, and the two differ. -/
theorem hasDiscrepancy_checks_receiver_id (tx : Transaction) (data : Payload)
    (g : ℚ) (h? : Option ℚ) :
    hasDiscrepancy (invalid_parameters_checks tx data g h?) "receiver_id" = true ↔
      (truthy data.receiver_id = true ∧ truthy tx.alipay_seller_account = true ∧
       data.receiver_id ≠ tx.alipay_seller_account) := by
  cases h? <;> cases htok : tx.payment_token_acquirer_ref <;>
    simp +decide [invalid_parameters_checks, hasDiscrepancy, List.any_append,
      any_ite_singleton, htok]

/-- The checklist records a `receiver_email` discrepancy exactly when the
`receiver_id` branch did not run and the payload email differs from the
configured seller email. -/
theorem hasDiscrepancy_checks_receiver_email (tx : Transaction) (data : Payload)
    (g : ℚ) (h? : Option ℚ) :
    hasDiscrepancy (invalid_parameters_checks tx data g h?) "receiver_email" = true ↔
      ((truthy data.receiver_id = false ∨ truthy tx.alipay_seller_account = false) ∧
       data.receiver_email ≠ Option.some tx.alipay_email_account) := by
  cases h? <;> cases htok : tx.payment_token_acquirer_ref <;>
    simp +decide [invalid_parameters_checks, hasDiscrepancy, List.any_append,
      any_ite_singleton, htok]

/-- The checklist records an `mc_gross` discrepancy exactly when the parsed
gross amount differs from `amount + fees` under the 2-decimal comparison. -/
theorem hasDiscrepancy_checks_mc_gross (tx : Transaction) (data : Payload)
    (g : ℚ) (h? : Option ℚ) :
    hasDiscrepancy (invalid_parameters_checks tx data g h?) "mc_gross" = true ↔
      float_compare g (tx.amount + tx.fees) 2 ≠ 0 := by
  cases h? <;> cases htok : tx.payment_token_acquirer_ref <;>
    simp +decide [invalid_parameters_checks, hasDiscrepancy, List.any_append,
      any_ite_singleton, htok]

/-- The checklist records an `mc_currency` discrepancy exactly when the
payload currency differs from the transaction currency name. -/
theorem hasDiscrepancy_checks_mc_currency (tx : Transaction) (data : Payload)
    (g : ℚ) (h? : Option ℚ) :
    hasDiscrepancy (invalid_parameters_checks tx data g h?) "mc_currency" = true ↔
      data.mc_currency ≠ Option.some tx.currency_name := by
  cases h? <;> cases htok : tx.payment_token_acquirer_ref <;>
    simp +decide [invalid_parameters_checks, hasDiscrepancy, List.any_append,
      any_ite_singleton, htok]

/-- `float_compare` returns `0` exactly when the two values round to the
same value at the given precision. -/
theorem float_compare_eq_zero_iff (v1 v2 : ℚ) (d : ℕ) :
    float_compare v1 v2 d = 0 ↔ roundTo d v1 = roundTo d v2 := by
  unfold float_compare
  split
  · simp_all
  · split <;> simp_all

example : pyParse? "103.86" = Option.some (10386, 2, 0) := by decide

example : pyParse? "0.0" = Option.some (0, 1, 0) := by decide

example : pyParse? "abc" = Option.none := by decide

example : pyParse? "" = Option.none := by decide

example : pyParse? "-2.5e1" = Option.some (-25, 1, 1) := by decide

example : pyFloat? "103.86" = Option.some (10386 / 100) := by
  simp [pyFloat?, show pyParse? "103.86" = Option.some (10386, 2, 0) from by decide]
  norm_num

example : pyFloat? "0.0" = Option.some 0 := by
  simp [pyFloat?, show pyParse? "0.0" = Option.some (0, 1, 0) from by decide]

example : roundTo 2 (10386 / 100 : ℚ) = 10386 / 100 := by
  rw [roundTo, round_eq]; norm_num

example : fmt2 100 = "100.00" := by
  rw [fmt2, round_eq]
  norm_num
  decide

example : fmt2 (386 / 100) = "3.86" := by
  rw [fmt2, round_eq]
  norm_num
  decide

/-- C5: with fees enabled, `alipay_compute_fees` selects the domestic
(fixed, percentage) pair when the payer country is non-null and equals the
merchant company's country and the international pair otherwise, and
returns `(percentage/100 * amount + fixed) / (1 - percentage/100)` for the
selected pair. -/
theorem compute_fees_formula (self : AcquirerAlipay) (amount : ℚ)
    (country_id : Option ℕ) (h : self.fees_active = true) :
    alipay_compute_fees self amount country_id =
      if country_id.isSome = true ∧ self.company_country_id = country_id then
        (self.fees_dom_var / 100 * amount + self.fees_dom_fixed) /
          (1 - self.fees_dom_var / 100)
      else
        (self.fees_int_var / 100 * amount + self.fees_int_fixed) /
          (1 - self.fees_int_var / 100) := by
  cases country_id with
  | none => simp [alipay_compute_fees, h]
  | some c =>
    by_cases hc : self.company_country_id = Option.some c <;>
      simp [alipay_compute_fees, h, hc]

/-- Witness for C5 at the default acquirer, amount 100, payer in the
merchant's country. -/
theorem compute_fees_formula_witness :
    acqDefault.fees_active = true ∧
    alipay_compute_fees acqDefault 100 (Option.some 1) =
      (acqDefault.fees_dom_var / 100 * 100 + acqDefault.fees_dom_fixed) /
        (1 - acqDefault.fees_dom_var / 100) := by
  refine ⟨rfl, ?_⟩
  rw [compute_fees_formula acqDefault 100 (Option.some 1) rfl]
  simp [acqDefault]

/-- C6: with the fees-enabled flag false, `alipay_compute_fees` returns
exactly `0.0` for every amount and payer country. -/
theorem compute_fees_disabled (self : AcquirerAlipay) (amount : ℚ)
    (country_id : Option ℕ) (h : self.fees_active = false) :
    alipay_compute_fees self amount country_id = 0 := by
  simp [alipay_compute_fees, h]

/-- Witness for C6. -/
theorem compute_fees_disabled_witness :
    { acqDefault with fees_active := false }.fees_active = false ∧
    alipay_compute_fees { acqDefault with fees_active := false } 12345
      (Option.some 7) = 0 :=
  ⟨rfl, compute_fees_disabled _ 12345 (Option.some 7) rfl⟩

/-- The fee formula is monotone in the amount when the percentage rate is
strictly between 0 and 100. -/
theorem fee_formula_monotone (p f a1 a2 : ℚ) (hp0 : 0 < p) (hp1 : p < 100)
    (ha : a1 ≤ a2) :
    (p / 100 * a1 + f) / (1 - p / 100) ≤ (p / 100 * a2 + f) / (1 - p / 100) := by
  have hden : (0 : ℚ) < 1 - p / 100 := by linarith
  exact (div_le_div_iff_of_pos_right hden).mpr (by nlinarith)

/-- Counterexample to C7 as stated: with the positive percentage rate 200
and positive fixed rate 1 (fees enabled, same country selection on both
sides), amounts 0 ≤ 1 give fees -1 and -3, so the fee is not monotone. -/
theorem compute_fees_not_monotone :
    (0 : ℚ) < acq200.fees_int_var ∧ (0 : ℚ) < acq200.fees_int_fixed ∧
    acq200.fees_active = true ∧ ((0 : ℚ) ≤ 1) ∧
    alipay_compute_fees acq200 0 Option.none = -1 ∧
    alipay_compute_fees acq200 1 Option.none = -3 ∧
    ¬ alipay_compute_fees acq200 0 Option.none ≤
        alipay_compute_fees acq200 1 Option.none := by
  refine ⟨by norm_num [acq200], by norm_num [acq200], rfl, by norm_num, ?_, ?_, ?_⟩ <;>
    norm_num [alipay_compute_fees, acq200]

/-- C7 amended: for every pair of amounts `a1 ≤ a2` and every fixed
positive percentage rate *less than 100* and positive fixed rate (fees
enabled, same country selection), the computed fee is monotone in the
amount. -/
theorem compute_fees_monotone (self : AcquirerAlipay) (country_id : Option ℕ)
    (a1 a2 : ℚ) (h : self.fees_active = true) (ha : a1 ≤ a2)
    (hdv0 : 0 < self.fees_dom_var) (hdv1 : self.fees_dom_var < 100)
    (hiv0 : 0 < self.fees_int_var) (hiv1 : self.fees_int_var < 100)
    (hdf : 0 < self.fees_dom_fixed) (hif : 0 < self.fees_int_fixed) :
    alipay_compute_fees self a1 country_id ≤ alipay_compute_fees self a2 country_id := by
  cases country_id with
  | none =>
    simp only [alipay_compute_fees, h, Bool.not_true, Bool.false_eq_true, if_false]
    exact fee_formula_monotone _ _ _ _ hiv0 hiv1 ha
  | some c =>
    by_cases hc : self.company_country_id = Option.some c <;>
      simp only [alipay_compute_fees, h, hc, if_true, if_false, Bool.not_true,
        Bool.false_eq_true, ite_true, ite_false]
    · exact fee_formula_monotone _ _ _ _ hdv0 hdv1 ha
    · exact fee_formula_monotone _ _ _ _ hiv0 hiv1 ha

/-- Witness for the amended C7 at the default acquirer and amounts 50 ≤ 60. -/
theorem compute_fees_monotone_witness :
    alipay_compute_fees acqDefault 50 (Option.some 1) ≤
      alipay_compute_fees acqDefault 60 (Option.some 1) := by
  exact compute_fees_monotone acqDefault (Option.some 1) 50 60 rfl (by norm_num)
    (by norm_num [acqDefault]) (by norm_num [acqDefault]) (by norm_num [acqDefault])
    (by norm_num [acqDefault]) (by norm_num [acqDefault]) (by norm_num [acqDefault])

/-- Counterexample to C8 as stated: `computeFees(100, domestic)` with the
default rates is exactly `625/161 = 3.8819875776...`; both rounding and
truncation at two decimal places give `3.88`, not `3.86`. -/
theorem compute_fees_example_not_3_86 :
    alipay_compute_fees acqDefault 100 (Option.some 1) = 625/161 ∧
    ⌊alipay_compute_fees acqDefault 100 (Option.some 1) * 100⌋ = 388 ∧
    roundTo 2 (alipay_compute_fees acqDefault 100 (Option.some 1)) = 388/100 ∧
    roundTo 2 (alipay_compute_fees acqDefault 100 (Option.some 1)) ≠ 386/100 := by
  have hv : alipay_compute_fees acqDefault 100 (Option.some 1) = 625/161 := by
    norm_num [alipay_compute_fees, acqDefault]
  refine ⟨hv, ?_, ?_, ?_⟩
  · rw [hv]; norm_num
  · rw [hv, roundTo, round_eq]; norm_num
  · rw [hv, roundTo, round_eq]; norm_num

/-- C1: `_alipay_form_validate` always writes `acquirer_reference` from the
payload's `txn_id` and `alipay_txn_type` from `payment_type`, and maps
`payment_status` exhaustively: Completed/Processed give state `done` with
`date_validate` from `payment_date` (current time when absent),
Pending/Expired give state `pending` with `state_message` from
`pending_reason` (empty when absent), and every other value, the absent key
included, gives state `error` with a message naming the transaction
reference and the status value; no branch fails. -/
theorem form_validate_spec (tx : Transaction) (data : Payload) (now : String) :
    (_alipay_form_validate tx data now).acquirer_reference = data.txn_id ∧
    (_alipay_form_validate tx data now).alipay_txn_type = data.payment_type ∧
    ((data.payment_status = Option.some "Completed" ∨
        data.payment_status = Option.some "Processed") →
      (_alipay_form_validate tx data now).state = "done" ∧
      (_alipay_form_validate tx data now).date_validate =
        Option.some (data.payment_date.getD now)) ∧
    ((data.payment_status = Option.some "Pending" ∨
        data.payment_status = Option.some "Expired") →
      (_alipay_form_validate tx data now).state = "pending" ∧
      (_alipay_form_validate tx data now).state_message =
        data.pending_reason.getD "") ∧
    ((data.payment_status ≠ Option.some "Completed" ∧
      data.payment_status ≠ Option.some "Processed" ∧
      data.payment_status ≠ Option.some "Pending" ∧
      data.payment_status ≠ Option.some "Expired") →
      (_alipay_form_validate tx data now).state = "error" ∧
      (_alipay_form_validate tx data now).state_message =
        "Received unrecognized status for Alipay payment " ++ tx.reference ++
          ": " ++ pyStr data.payment_status ++ ", set as error") := by
  unfold _alipay_form_validate
  by_cases h1 : data.payment_status = Option.some "Completed" ∨
      data.payment_status = Option.some "Processed"
  · rcases h1 with h1 | h1 <;> simp [h1]
  · by_cases h2 : data.payment_status = Option.some "Pending" ∨
        data.payment_status = Option.some "Expired"
    · rcases h2 with h2 | h2 <;> simp [h2]
    · rw [if_neg h1, if_neg h2]
      refine ⟨rfl, rfl, ?_, ?_, fun _ => ⟨rfl, rfl⟩⟩
      · intro hc; exact absurd hc h1
      · intro hc; exact absurd hc h2

/-- Witness for C1: the Completed branch at a concrete transaction and
payload, current time `NOW`. -/
theorem form_validate_spec_witness :
    (_alipay_form_validate txC1 pC1 "NOW").state = "done" ∧
    (_alipay_form_validate txC1 pC1 "NOW").date_validate = Option.some "NOW" ∧
    (_alipay_form_validate txC1 pC1 "NOW").acquirer_reference = Option.some "T1" ∧
    (_alipay_form_validate txC1 pC1 "NOW").alipay_txn_type =
      Option.some "instant_transfer" := by
  have h := form_validate_spec txC1 pC1 "NOW"
  refine ⟨(h.2.2.1 (Or.inl rfl)).1, ?_, ?_, ?_⟩
  · simpa [pC1] using (h.2.2.1 (Or.inl rfl)).2
  · simpa [pC1] using h.1
  · simpa [pC1] using h.2.1

/-- C3: `_alipay_form_get_tx_from_data` fails with `ValidationError` exactly
when the payload reference (`item_number`) or `txn_id` is absent or empty,
or the store lookup by reference yields zero or more than one transaction;
with exactly one match it returns that transaction, an unmodified element of
the store. -/
theorem get_tx_from_data_spec (store : List Transaction) (data : Payload) :
    ((∃ e, _alipay_form_get_tx_from_data store data = Except.error e) ↔
      (truthy data.item_number = false ∨ truthy data.txn_id = false ∨
       (store.filter (fun t => t.reference = data.item_number.getD "")).length ≠ 1)) ∧
    (∀ t, truthy data.item_number = true → truthy data.txn_id = true →
      store.filter (fun t => t.reference = data.item_number.getD "") = [t] →
      _alipay_form_get_tx_from_data store data = Except.ok t) ∧
    (∀ t, _alipay_form_get_tx_from_data store data = Except.ok t → t ∈ store) := by
  unfold _alipay_form_get_tx_from_data
  by_cases hk : truthy data.item_number = false ∨ truthy data.txn_id = false
  · rw [if_pos hk]
    refine ⟨⟨fun _ => ?_, fun _ => ⟨_, rfl⟩⟩, ?_, ?_⟩
    · rcases hk with hk | hk
      · exact Or.inl hk
      · exact Or.inr (Or.inl hk)
    · intro t h1 h2 hf
      rcases hk with hk | hk
      · rw [h1] at hk; cases hk
      · rw [h2] at hk; cases hk
    · intro t h; cases h
  · rw [if_neg hk]
    simp only [not_or, Bool.not_eq_false] at hk
    cases hf : store.filter (fun t => t.reference = data.item_number.getD "") with
    | nil =>
      refine ⟨⟨fun _ => ?_, fun _ => ⟨_, rfl⟩⟩, ?_, ?_⟩
      · exact Or.inr (Or.inr (by simp))
      · intro t _ _ hf2; simp at hf2
      · intro t h; cases h
    | cons t1 rest =>
      cases rest with
      | nil =>
        refine ⟨⟨fun he => ?_, fun hr => ?_⟩, ?_, ?_⟩
        · obtain ⟨e, he⟩ := he; cases he
        · rcases hr with hr | hr | hr
          · rw [hk.1] at hr; cases hr
          · rw [hk.2] at hr; cases hr
          · simp at hr
        · intro t _ _ hf2
          injection hf2 with h1 _
          exact congrArg Except.ok h1
        · intro t h
          injection h with h1
          rw [← h1]
          exact List.mem_of_mem_filter (by rw [hf]; exact List.mem_singleton_self t1)
      | cons t2 rest2 =>
        refine ⟨⟨fun _ => ?_, fun _ => ⟨_, rfl⟩⟩, ?_, ?_⟩
        · exact Or.inr (Or.inr (by simp))
        · intro t _ _ hf2; simp at hf2
        · intro t h; cases h

/-- Witness for C3: in the store `[txStoreA, txStoreB]`, the payload
referencing `SO1` with a `txn_id` resolves to `txStoreA`. -/
theorem get_tx_from_data_spec_witness :
    _alipay_form_get_tx_from_data [txStoreA, txStoreB]
      { item_number := Option.some "SO1", txn_id := Option.some "T9" } =
      Except.ok txStoreA := by
  apply (get_tx_from_data_spec [txStoreA, txStoreB]
    { item_number := Option.some "SO1", txn_id := Option.some "T9" }).2.1
  · rfl
  · rfl
  · simp +decide [txStoreA, txStoreB]

/-- C2: with a truthy payload `receiver_id` and a truthy configured seller
account, a `receiver_id` discrepancy is recorded exactly when they differ
and the `receiver_email` check does not run; otherwise the email check runs
instead, recording a `receiver_email` discrepancy exactly when the payload
email differs from the configured seller email, and no `receiver_id`
discrepancy is recorded — so exactly one of the two seller identity checks
executes in every case. -/
theorem seller_check_precedence (tx : Transaction) (data : Payload)
    (l : List Discrepancy)
    (h : _alipay_form_get_invalid_parameters tx data = Option.some l) :
    (truthy data.receiver_id = true → truthy tx.alipay_seller_account = true →
      (hasDiscrepancy l "receiver_id" = true ↔
        data.receiver_id ≠ tx.alipay_seller_account) ∧
      hasDiscrepancy l "receiver_email" = false) ∧
    ((truthy data.receiver_id = false ∨ truthy tx.alipay_seller_account = false) →
      (hasDiscrepancy l "receiver_email" = true ↔
        data.receiver_email ≠ Option.some tx.alipay_email_account) ∧
      hasDiscrepancy l "receiver_id" = false) := by
  obtain ⟨g, h?, hg, rfl⟩ := invalid_parameters_shape tx data l h
  constructor
  · intro h1 h2
    constructor
    · rw [hasDiscrepancy_checks_receiver_id]
      simp [h1, h2]
    · rw [← Bool.not_eq_true, hasDiscrepancy_checks_receiver_email]
      rintro ⟨hc | hc, _⟩
      · rw [h1] at hc; cases hc
      · rw [h2] at hc; cases hc
  · intro hcase
    constructor
    · rw [hasDiscrepancy_checks_receiver_email]
      exact ⟨fun hx => hx.2, fun hx => ⟨hcase, hx⟩⟩
    · rw [← Bool.not_eq_true, hasDiscrepancy_checks_receiver_id]
      rintro ⟨ha, hb, _⟩
      rcases hcase with hc | hc
      · rw [ha] at hc; cases hc
      · rw [hb] at hc; cases hc

/-- Witness for C2: the mismatching `receiver_id` yields a `receiver_id`
discrepancy and no `receiver_email` discrepancy even though the email
matches. -/
theorem seller_check_precedence_witness :
    truthy pC2.receiver_id = true ∧ truthy txC2.alipay_seller_account = true ∧
    pC2.receiver_email = Option.some txC2.alipay_email_account ∧
    hasDiscrepancy [("receiver_id", PyVal.str "2088999", PyVal.str "2088111")]
      "receiver_id" = true ∧
    hasDiscrepancy [("receiver_id", PyVal.str "2088999", PyVal.str "2088111")]
      "receiver_email" = false := by
  have hl : _alipay_form_get_invalid_parameters txC2 pC2 =
      Option.some [("receiver_id", PyVal.str "2088999", PyVal.str "2088111")] := by
    simp only [_alipay_form_get_invalid_parameters, txC2, pC2]
    norm_num [pyFloat?, show pyParse? "0.0" = Option.some (0, 1, 0) from by decide,
      invalid_parameters_checks, truthy, pyVal, float_compare, roundTo, round_eq]
    decide
  have h := seller_check_precedence txC2 pC2 _ hl
  refine ⟨rfl, rfl, rfl, ?_, ?_⟩
  · exact ((h.1 rfl rfl).1).mpr (by simp [pC2, txC2])
  · exact (h.1 rfl rfl).2

/-- C4: the parsed `mc_gross` is compared against `amount + fees` at
2-decimal tolerance (discrepancy exactly when the rounded values differ)
and `mc_currency` is compared to the transaction currency by exact string
equality; concretely, the matching payload yields an empty discrepancy
list and the EUR variant yields exactly one discrepancy, for
`mc_currency`. -/
theorem gross_and_currency_checks :
    _alipay_form_get_invalid_parameters tx4 p4 = Option.some [] ∧
    _alipay_form_get_invalid_parameters tx4 p4eur =
      Option.some [("mc_currency", PyVal.str "EUR", PyVal.str "USD")] ∧
    (∀ tx data l q, _alipay_form_get_invalid_parameters tx data = Option.some l →
      pyFloat? (data.mc_gross.getD "0.0") = Option.some q →
      (hasDiscrepancy l "mc_gross" = true ↔
        roundTo 2 q ≠ roundTo 2 (tx.amount + tx.fees))) ∧
    (∀ tx data l, _alipay_form_get_invalid_parameters tx data = Option.some l →
      (hasDiscrepancy l "mc_currency" = true ↔
        data.mc_currency ≠ Option.some tx.currency_name)) := by
  refine ⟨?_, ?_, ?_, ?_⟩
  · simp only [_alipay_form_get_invalid_parameters, tx4, p4]
    norm_num [pyFloat?, show pyParse? "103.86" = Option.some (10386, 2, 0) from by decide,
      invalid_parameters_checks, truthy, pyVal, float_compare, roundTo, round_eq]
  · simp only [_alipay_form_get_invalid_parameters, tx4, p4eur, p4]
    norm_num [pyFloat?, show pyParse? "103.86" = Option.some (10386, 2, 0) from by decide,
      invalid_parameters_checks, truthy, pyVal, float_compare, roundTo, round_eq]
    decide
  · intro tx data l q h hq
    obtain ⟨g, h?, hg, rfl⟩ := invalid_parameters_shape tx data l h
    rw [hq] at hg
    injection hg with hg
    subst hg
    rw [hasDiscrepancy_checks_mc_gross]
    simp only [Ne, float_compare_eq_zero_iff]
  · intro tx data l h
    obtain ⟨g, h?, hg, rfl⟩ := invalid_parameters_shape tx data l h
    exact hasDiscrepancy_checks_mc_currency tx data g h?

/-- Witness for C4's universally quantified parts, at the EUR fixture. -/
theorem gross_and_currency_checks_witness :
    hasDiscrepancy [("mc_currency", PyVal.str "EUR", PyVal.str "USD")]
      "mc_currency" = true := by
  have h := gross_and_currency_checks
  exact (h.2.2.2 tx4 p4eur _ h.2.1).mpr (by simp [p4eur, p4, tx4])

/-- C9: when the `mc_gross` key is absent the gross check is not skipped:
the default string `0.0` is parsed and compared, so an `mc_gross`
discrepancy is recorded exactly when `amount + fees` does not round to
`0.00`. -/
theorem missing_mc_gross_not_skipped (tx : Transaction) (data : Payload)
    (l : List Discrepancy) (hg : data.mc_gross = Option.none)
    (h : _alipay_form_get_invalid_parameters tx data = Option.some l) :
    hasDiscrepancy l "mc_gross" = true ↔ roundTo 2 (tx.amount + tx.fees) ≠ 0 := by
  obtain ⟨g, h?, hgp, rfl⟩ := invalid_parameters_shape tx data l h
  rw [hg] at hgp
  rw [show pyFloat? ((Option.none : Option String).getD "0.0") = Option.some 0 from by
    simp [pyFloat?, show pyParse? "0.0" = Option.some (0, 1, 0) from by decide]] at hgp
  injection hgp with hgp
  subst hgp
  rw [hasDiscrepancy_checks_mc_gross]
  simp only [Ne, float_compare_eq_zero_iff]
  rw [show roundTo 2 (0 : ℚ) = 0 from by rw [roundTo, round_eq]; norm_num]
  exact ne_comm

/-- Witness for C9: with `mc_gross` absent and `amount + fees = 50`, the
checklist records an `mc_gross` discrepancy. -/
theorem missing_mc_gross_not_skipped_witness :
    pC9.mc_gross = Option.none ∧
    _alipay_form_get_invalid_parameters txC9 pC9 = Option.some lC9 ∧
    hasDiscrepancy lC9 "mc_gross" = true := by
  have hl : _alipay_form_get_invalid_parameters txC9 pC9 = Option.some lC9 := by
    simp only [_alipay_form_get_invalid_parameters, txC9, pC9, lC9]
    norm_num [pyFloat?, show pyParse? "0.0" = Option.some (0, 1, 0) from by decide,
      invalid_parameters_checks, truthy, pyVal, float_compare, roundTo, round_eq]
  refine ⟨rfl, hl, ?_⟩
  refine (missing_mc_gross_not_skipped txC9 pC9 lC9 rfl hl).mpr ?_
  rw [show txC9.amount + txC9.fees = 50 from by norm_num [txC9], roundTo, round_eq]
  norm_num

/-- C10: `_alipay_form_get_invalid_parameters` is not total over arbitrary
string payloads — an unparseable `mc_gross`, or an unparseable present
`handling_amount`, makes the unguarded `float(...)` conversion raise
(modelled as `Option.none`) instead of recording a discrepancy, and such
payloads exist. -/
theorem invalid_parameters_not_total :
    (∀ tx data s, data.mc_gross = Option.some s → pyFloat? s = Option.none →
      _alipay_form_get_invalid_parameters tx data = Option.none) ∧
    (∀ tx data s, data.handling_amount = Option.some s → pyFloat? s = Option.none →
      _alipay_form_get_invalid_parameters tx data = Option.none) ∧
    (∃ tx data, _alipay_form_get_invalid_parameters tx data = Option.none) := by
  have h1 : ∀ tx data s, data.mc_gross = Option.some s → pyFloat? s = Option.none →
      _alipay_form_get_invalid_parameters tx data = Option.none := by
    intro tx data s hs hp
    unfold _alipay_form_get_invalid_parameters
    rw [hs, Option.getD_some, hp]
  refine ⟨h1, ?_, ?_⟩
  · intro tx data s hs hp
    unfold _alipay_form_get_invalid_parameters
    cases hg : pyFloat? (data.mc_gross.getD "0.0") with
    | none => rfl
    | some g =>
      rw [hs]
      dsimp only
      rw [hp]
  · exact ⟨txC10, pC10, h1 txC10 pC10 "not-a-number" rfl (by decide)⟩

/-- Witness for C10 at the concrete unparseable payload. -/
theorem invalid_parameters_not_total_witness :
    _alipay_form_get_invalid_parameters txC10 pC10 = Option.none :=
  invalid_parameters_not_total.1 txC10 pC10 "not-a-number" rfl (by decide)

/-- C8 amended: `computeFees(100, domestic)` with rates (fixed=0.35,
percent=3.4) yields exactly `(0.034*100+0.35)/(1-0.034) = 625/161 =
3.8819875776...`, which is `3.88` at two decimal places. -/
theorem compute_fees_example_value :
    alipay_compute_fees acqDefault 100 (Option.some 1) =
      (34/1000 * 100 + 35/100) / (1 - 34/1000) ∧
    alipay_compute_fees acqDefault 100 (Option.some 1) = 625/161 ∧
    roundTo 2 (alipay_compute_fees acqDefault 100 (Option.some 1)) = 388/100 := by
  have hv : alipay_compute_fees acqDefault 100 (Option.some 1) = 625/161 := by
    norm_num [alipay_compute_fees, acqDefault]
  refine ⟨by rw [hv]; norm_num, hv, ?_⟩
  rw [hv, roundTo, round_eq]; norm_num
